import Mathlib

/-!
Verification of the cinema catalog application core: the versioned
list-cache invalidation mechanism (core/cache_utils.py, films/views.py,
authors/views.py) and the TMDb metadata import pipeline
(films/services.py, films/management/commands/import_tmdb.py).

The Python source is shallowly embedded: the key-value cache is a partial
map from string keys to integers, database tables are lists of rows,
fallible steps return Except, and Python truthiness of optional values is
modelled explicitly.
-/

set_option maxRecDepth 20000

/-! ## Versioned cache (core/cache_utils.py)

The Django cache is modelled as a partial map from keys to integer values,
which is all the version counters need.  cache.get_or_set returns the
stored value or stores and returns the default; cache.incr raises
ValueError on a missing key, which increment_version catches by resetting
the counter to 1.
-/

def VCache : Type := String → Option Nat

def cacheSet (c : VCache) (k : String) (v : Nat) : VCache :=
  fun k2 => if k2 = k then some v else c k2

def emptyCache : VCache := fun _ => none

/-- Embeds get_version: cache.get_or_set of the key pfx ++ ":version" with
default 1.  Returns the observed value together with the cache state after
the call (get_or_set stores the default when the key is absent). -/
def get_version (c : VCache) (pfx : String) : Nat × VCache :=
  match c (pfx ++ ":version") with
  | some v => (v, c)
  | none => (1, cacheSet c (pfx ++ ":version") 1)

/-- Embeds increment_version: cache.incr of the version key; a missing key
raises ValueError, and the except branch stores 1. -/
def increment_version (c : VCache) (pfx : String) : VCache :=
  match c (pfx ++ ":version") with
  | some v => cacheSet c (pfx ++ ":version") (v + 1)
  | none => cacheSet c (pfx ++ ":version") 1

/-- Iterates increment_version n times on the same prefix. -/
def incrN (c : VCache) (pfx : String) : Nat → VCache
  | 0 => c
  | n + 1 => increment_version (incrN c pfx n) pfx

/-! ## Decimal rendering of integers

Python renders the version and the user id in decimal inside the
f-string that builds a cache key.  The rendering is defined through
Nat.digits so that injectivity is available. -/

def natToDec (n : Nat) : String :=
  if n = 0 then "0" else String.mk (((Nat.digits 10 n).map Nat.digitChar).reverse)

/-! ## MD5 (hashlib.md5 as used by build_list_cache_key)

build_list_cache_key hashes the raw query string with hashlib.md5 and
embeds the hex digest in the key.  The algorithm is embedded over Nat
byte values, with 32-bit arithmetic written as explicit reduction
modulo 2 ^ 32. -/

def utf8EncodeCharNat (c : Char) : List Nat :=
  let n := c.toNat
  if n < 128 then [n]
  else if n < 2048 then [192 + n / 64, 128 + n % 64]
  else if n < 65536 then [224 + n / 4096, 128 + (n / 64) % 64, 128 + n % 64]
  else [240 + n / 262144, 128 + (n / 4096) % 64, 128 + (n / 64) % 64, 128 + n % 64]

/-- Encodes a string as its utf-8 byte values, as Python str.encode does. -/
def utf8Bytes (s : String) : List Nat :=
  s.data.foldr (fun c acc => utf8EncodeCharNat c ++ acc) []

def m32 : Nat := 4294967296

def rotl (x n : Nat) : Nat := ((x <<< n) ||| (x >>> (32 - n))) % m32

def Ktable : List Nat :=
  [0xd76aa478, 0xe8c7b756, 0x242070db, 0xc1bdceee,
   0xf57c0faf, 0x4787c62a, 0xa8304613, 0xfd469501,
   0x698098d8, 0x8b44f7af, 0xffff5bb1, 0x895cd7be,
   0x6b901122, 0xfd987193, 0xa679438e, 0x49b40821,
   0xf61e2562, 0xc040b340, 0x265e5a51, 0xe9b6c7aa,
   0xd62f105d, 0x02441453, 0xd8a1e681, 0xe7d3fbc8,
   0x21e1cde6, 0xc33707d6, 0xf4d50d87, 0x455a14ed,
   0xa9e3e905, 0xfcefa3f8, 0x676f02d9, 0x8d2a4c8a,
   0xfffa3942, 0x8771f681, 0x6d9d6122, 0xfde5380c,
   0xa4beea44, 0x4bdecfa9, 0xf6bb4b60, 0xbebfbc70,
   0x289b7ec6, 0xeaa127fa, 0xd4ef3085, 0x04881d05,
   0xd9d4d039, 0xe6db99e5, 0x1fa27cf8, 0xc4ac5665,
   0xf4292244, 0x432aff97, 0xab9423a7, 0xfc93a039,
   0x655b59c3, 0x8f0ccc92, 0xffeff47d, 0x85845dd1,
   0x6fa87e4f, 0xfe2ce6e0, 0xa3014314, 0x4e0811a1,
   0xf7537e82, 0xbd3af235, 0x2ad7d2bb, 0xeb86d391]

def Shifts : List Nat :=
  [7, 12, 17, 22, 7, 12, 17, 22, 7, 12, 17, 22, 7, 12, 17, 22,
   5, 9, 14, 20, 5, 9, 14, 20, 5, 9, 14, 20, 5, 9, 14, 20,
   4, 11, 16, 23, 4, 11, 16, 23, 4, 11, 16, 23, 4, 11, 16, 23,
   6, 10, 15, 21, 6, 10, 15, 21, 6, 10, 15, 21, 6, 10, 15, 21]

structure MD5St where
  a : Nat
  b : Nat
  c : Nat
  d : Nat

def md5round (M : List Nat) (st : MD5St) (i : Nat) : MD5St :=
  let f :=
    if i < 16 then (st.b &&& st.c) ||| ((st.b ^^^ 4294967295) &&& st.d)
    else if i < 32 then (st.d &&& st.b) ||| ((st.d ^^^ 4294967295) &&& st.c)
    else if i < 48 then st.b ^^^ st.c ^^^ st.d
    else st.c ^^^ (st.b ||| (st.d ^^^ 4294967295))
  let g :=
    if i < 16 then i
    else if i < 32 then (5 * i + 1) % 16
    else if i < 48 then (3 * i + 5) % 16
    else (7 * i) % 16
  let t := (f + st.a + Ktable.getD i 0 + M.getD g 0) % m32
  { a := st.d, b := (st.b + rotl t (Shifts.getD i 0)) % m32, c := st.b, d := st.c }

def md5Block (st : MD5St) (M : List Nat) : MD5St :=
  let r := (List.range 64).foldl (md5round M) st
  { a := (st.a + r.a) % m32, b := (st.b + r.b) % m32,
    c := (st.c + r.c) % m32, d := (st.d + r.d) % m32 }

/-- Appends the 0x80 byte, zero padding to 56 mod 64, and the original
bit length as eight little-endian bytes. -/
def md5pad (msg : List Nat) : List Nat :=
  let padlen := (119 - msg.length % 64) % 64
  let bl := (8 * msg.length) % (2 ^ 64)
  msg ++ [128] ++ List.replicate padlen 0 ++
    [bl % 256, (bl >>> 8) % 256, (bl >>> 16) % 256, (bl >>> 24) % 256,
     (bl >>> 32) % 256, (bl >>> 40) % 256, (bl >>> 48) % 256, (bl >>> 56) % 256]

/-- Packs bytes into 32-bit little-endian words. -/
def toWords : List Nat → List Nat
  | b0 :: b1 :: b2 :: b3 :: rest =>
      (b0 + 256 * b1 + 65536 * b2 + 16777216 * b3) :: toWords rest
  | _ => []

/-- Splits a byte list into 64-byte blocks of 16 words each; the first
argument is fuel so that the recursion is structural. -/
def toBlocksF : Nat → List Nat → List (List Nat)
  | 0, _ => []
  | _ + 1, [] => []
  | n + 1, x :: xs => toWords ((x :: xs).take 64) :: toBlocksF n (xs.drop 63)

def toBlocks (l : List Nat) : List (List Nat) := toBlocksF l.length l

def md5init : MD5St :=
  { a := 0x67452301, b := 0xefcdab89, c := 0x98badcfe, d := 0x10325476 }

def md5compute (msg : List Nat) : MD5St :=
  (toBlocks (md5pad msg)).foldl md5Block md5init

def wordLEBytes (w : Nat) : List Nat :=
  [w % 256, (w >>> 8) % 256, (w >>> 16) % 256, (w >>> 24) % 256]

def byteToHex (b : Nat) : List Char := [Nat.digitChar (b / 16), Nat.digitChar (b % 16)]

def digestHex (st : MD5St) : String :=
  String.mk (((wordLEBytes st.a ++ wordLEBytes st.b ++ wordLEBytes st.c
    ++ wordLEBytes st.d).map byteToHex).flatten)

/-- Embeds hashlib.md5 of the utf-8 encoding of a string, hexdigest form. -/
def md5hex (s : String) : String := digestHex (md5compute (utf8Bytes s))

/-! ## Cache key construction (core/cache_utils.py build_list_cache_key) -/

/-- Embeds the actor part of the key: "u" followed by the user id for an
authenticated request, the literal "anon" otherwise. -/
def user_part : Option Nat → String
  | some uid => "u" ++ natToDec uid
  | none => "anon"

/-- Key text produced for a given observed version: the f-string
prefix:v{version}:{user_part}:q{query_hash}. -/
def keyFor (pfx : String) (version : Nat) (u : Option Nat) (query_string : String) : String :=
  pfx ++ ":v" ++ natToDec version ++ ":" ++ user_part u ++ ":q" ++ md5hex query_string

/-- Embeds build_list_cache_key: reads the current version through
get_version (which may store the default) and builds the key. -/
def build_list_cache_key (c : VCache) (pfx : String) (u : Option Nat)
    (query_string : String) : String × VCache :=
  let vres := get_version c pfx
  (keyFor pfx vres.1 u query_string, vres.2)

/-! ## MD5 digests collide on some pair of strings

The digest has 128 bits while there are infinitely many query strings, so
md5hex cannot be injective. -/

instance : Infinite String :=
  Infinite.of_injective (fun n : Nat => String.mk (List.replicate n 'a'))
    (fun m n h => by simpa using congrArg (fun s : String => s.data.length) h)

/-- The four digest words of md5, bundled as a value of a finite type. -/
def md5fin (s : String) : Fin m32 × Fin m32 × Fin m32 × Fin m32 :=
  (⟨(md5compute (utf8Bytes s)).a % m32, Nat.mod_lt _ (by decide)⟩,
   ⟨(md5compute (utf8Bytes s)).b % m32, Nat.mod_lt _ (by decide)⟩,
   ⟨(md5compute (utf8Bytes s)).c % m32, Nat.mod_lt _ (by decide)⟩,
   ⟨(md5compute (utf8Bytes s)).d % m32, Nat.mod_lt _ (by decide)⟩)

/-! ## Import pipeline data (films/services.py)

External records are Python dicts; fields read with dict.get are Option
valued, and the truthiness checks the source performs on them are modelled
explicitly.  Reading a key with square brackets from a dict that lacks it
raises KeyError, which nothing in the pipeline catches; that is the only
uncaught exception the embedded pipeline can produce. -/

inductive PyErr
  | keyError
  | integrityError
  | attributeError
deriving DecidableEq

deriving instance DecidableEq for Except

/-- Python truthiness of an optional integer: None and 0 are falsy. -/
def truthyNat : Option Nat → Bool
  | none => false
  | some n => n != 0

/-- Python truthiness of an optional string: None and "" are falsy. -/
def truthyStr : Option String → Bool
  | none => false
  | some s => s != ""

structure MovieRecord where
  id : Option Nat
  title : Option String
  release_date : Option String
  overview : Option String
  poster_path : Option String
deriving DecidableEq

structure CrewMember where
  job : Option String
  id : Option Nat
  name : Option String
  profile_path : Option String
deriving DecidableEq

structure PersonDetails where
  birthday : Option String
  biography : Option String
  profile_path : Option String
deriving DecidableEq

/-- External collaborators for one pipeline run: the credits endpoint per
movie id, the person endpoint per person id (None when the fetch failed),
and the image host per url, returning a status code and the body bytes or
a transport error. -/
structure World where
  credits : Nat → Except Unit (List CrewMember)
  person : Nat → Option PersonDetails
  image : String → Except Unit (Nat × List Nat)

def IMAGE_BASE_URL : String := "https://image.tmdb.org/t/p/w500"

/-! ## Relational store (films/models.py, authors/models.py, users)

Rows are stored in lists.  Author rows are keyed by their unique OneToOne
user, identified here by the username.  Film rows follow the declared
model src/films/models.py: a non-null author ForeignKey (related_name
films) and no authors field; the float average_rating presentation field
is omitted.  The import service, serializers, admin, factories and tests
all address a many-to-many authors attribute this model does not
declare; the declared model is what the importer runs against, so that
access raises (see import_movie below). -/

structure UserRow where
  username : String
  email : String
  first_name : String
  last_name : String
  role : String
deriving DecidableEq

structure AuthorRow where
  username : String
  tmdb_id : Option Nat
  source : String
  date_of_birth : Option (Nat × Nat × Nat)
  bio : String
  photo : Option (String × List Nat)
deriving DecidableEq

structure FilmRow where
  tmdb_id : Option Nat
  title : String
  description : String
  release_date : String
  status : String
  evaluation : String
  source : String
  author : String
  poster : Option (String × List Nat)
deriving DecidableEq

structure DB where
  users : List UserRow
  authors : List AuthorRow
  films : List FilmRow
deriving DecidableEq

def emptyDB : DB := ⟨[], [], []⟩

/-! ## Small Python helpers -/

/-- Models datetime.strptime(s, "%Y-%m-%d").date() as a partial parse;
digit strings of plausible lengths with month in 1..12 and day in 1..31
are accepted.  Calendar-exact day validation is abstracted: strptime
also rejects impossible dates such as 2020-02-31 (which the source maps
to a None birthday) while this parse accepts them; no property below
evaluates the parse on such a date. -/
def parseYmd (s : String) : Option (Nat × Nat × Nat) :=
  match s.splitOn "-" with
  | [y, m, d] =>
    if y.data.all Char.isDigit && y ≠ "" && y.length ≤ 4 &&
       m.data.all Char.isDigit && m ≠ "" && m.length ≤ 2 &&
       d.data.all Char.isDigit && d ≠ "" && d.length ≤ 2 then
      let mv := m.toNat?.getD 0
      let dv := d.toNat?.getD 0
      if 1 ≤ mv && mv ≤ 12 && 1 ≤ dv && dv ≤ 31 then
        some (y.toNat?.getD 0, mv, dv)
      else none
    else none
  | _ => none

/-- Models django.utils.text.slugify on ASCII input: lowercase, keep
alphanumerics and underscores, turn whitespace and hyphen runs into a
single hyphen, strip leading and trailing hyphens and underscores.  The
NFKD transliteration django applies to non-ASCII letters (for example
an accented e becomes e) is not modelled: such letters are dropped
here; no property below inspects a filename built from non-ASCII
text. -/
def slugify (s : String) : String :=
  let mapped := s.data.filterMap (fun c =>
    if c.isAlpha || c.isDigit then some c.toLower
    else if c = '_' then some '_'
    else if c.isWhitespace || c = '-' then some '-'
    else none)
  let collapsed := mapped.foldr
    (fun c acc => if c = '-' ∧ acc.head? = some '-' then acc else c :: acc) []
  let trimmed :=
    ((collapsed.dropWhile (fun c => c = '-' || c = '_')).reverse.dropWhile
      (fun c => c = '-' || c = '_')).reverse
  String.mk trimmed

/-- Models str.split(maxsplit=1): leading whitespace skipped, first token,
then the remainder with its leading whitespace stripped, kept only when
nonempty. -/
def pySplitMax1 (s : String) : List String :=
  let cs := s.data.dropWhile Char.isWhitespace
  if cs = [] then []
  else
    let first := cs.takeWhile (fun c => !c.isWhitespace)
    let rest := (cs.dropWhile (fun c => !c.isWhitespace)).dropWhile Char.isWhitespace
    if rest = [] then [String.mk first] else [String.mk first, String.mk rest]

/-! ## Store operations used by the pipeline -/

/-- Embeds User.objects.get_or_create keyed by username: an existing row
is returned untouched (defaults are not applied), otherwise the row is
inserted. -/
def get_or_create_user (db : DB) (username email fn ln rl : String) : DB :=
  if db.users.any (fun u => u.username = username) then db
  else { db with users := db.users ++ [⟨username, email, fn, ln, rl⟩] }

/-- Embeds Author.objects.update_or_create keyed by user: the matching row
has the defaults applied (photo untouched), otherwise a fresh row is
inserted with no photo.  Author.save runs clean(), which raises
ValidationError when the linked user has role spectator; the import
always links a user it created with role author, so that path is only
reachable from a pre-existing tmdb_<id> user with spectator role and is
not modelled; no property below constructs such a store. -/
def update_or_create_author (db : DB) (username : String) (tid : Nat)
    (dob : Option (Nat × Nat × Nat)) (bio : String) : DB :=
  if db.authors.any (fun a => a.username = username) then
    { db with authors := db.authors.map (fun a =>
        if a.username = username then
          { a with tmdb_id := some tid, source := "TMDB", date_of_birth := dob, bio := bio }
        else a) }
  else
    { db with authors := db.authors ++ [⟨username, some tid, "TMDB", dob, bio, none⟩] }

def mapAuthorsAt (db : DB) (username : String) (g : AuthorRow → AuthorRow) : DB :=
  { db with authors := db.authors.map (fun a => if a.username = username then g a else a) }

/-- Embeds TMDBService._download_and_save_author_photo: on transport error
or non-200 status the author row is left untouched; on success the photo
is replaced under a name slugified from the user names. -/
def download_and_save_author_photo (w : World) (db : DB) (username : String)
    (profile_path : String) : DB :=
  match w.image (IMAGE_BASE_URL ++ profile_path) with
  | .error _ => db
  | .ok (status, content) =>
    if status = 200 then
      let user := db.users.find? (fun u => u.username = username)
      let ufn := match user with | some u => u.first_name | none => ""
      let uln := match user with | some u => u.last_name | none => ""
      let first_name := if ufn ≠ "" then slugify ufn else ""
      let last_name := if uln ≠ "" then slugify uln else ""
      let filename :=
        if first_name ≠ "" ∧ last_name ≠ "" then
          "author_" ++ first_name ++ "_" ++ last_name ++ ".jpg"
        else if first_name ≠ "" ∨ last_name ≠ "" then
          "author_" ++ (if first_name ≠ "" then first_name else last_name) ++ ".jpg"
        else "author_" ++ slugify username ++ ".jpg"
      mapAuthorsAt db username (fun a => { a with photo := some (filename, content) })
    else db

/-- Embeds TMDBService._import_author: guard on truthy person id and name,
best-effort person details, deterministic synthetic username, user
get_or_create, author upsert keyed by the user, then the photo step.
Returns the author key (None when the guard failed) with the store. -/
def import_author (w : World) (db : DB) (person_data : CrewMember) : Option String × DB :=
  if ¬ (truthyNat person_data.id && truthyStr person_data.name) then (none, db)
  else
    let tid := person_data.id.getD 0
    let name := person_data.name.getD ""
    let person_details := w.person tid
    let username := "tmdb_" ++ natToDec tid
    let email := username ++ "@example.com"
    let name_parts := pySplitMax1 name
    let first_name := name_parts.getD 0 ""
    let last_name := if name_parts.length > 1 then name_parts.getD 1 "" else ""
    let db1 := get_or_create_user db username email first_name last_name "author"
    let birthday := match person_details with
      | some pd => match pd.birthday with
        | some b => if b ≠ "" then parseYmd b else none
        | none => none
      | none => none
    let bio0 := match person_details with
      | some pd => pd.biography.getD ""
      | none => ""
    let bio := if bio0 ≠ "" then bio0.take 1000 else ""
    let db2 := update_or_create_author db1 username tid birthday bio
    let fromDetails := match person_details with
      | some pd => pd.profile_path
      | none => none
    let profile_path := match fromDetails with
      | some p => if p ≠ "" then some p else person_data.profile_path
      | none => person_data.profile_path
    let db3 := if truthyStr profile_path then
        download_and_save_author_photo w db2 username (profile_path.getD "")
      else db2
    (some username, db3)

/-- Embeds the list comprehension over the crew: each member has its job
key read with square brackets in order, so the first member lacking the
key raises, otherwise the members whose job equals "Director" are kept in
order. -/
def select_directors : List CrewMember → Except PyErr (List CrewMember)
  | [] => .ok []
  | m :: rest =>
    match m.job with
    | none => .error .keyError
    | some j =>
      match select_directors rest with
      | .error e => .error e
      | .ok ds => .ok (if j = "Director" then m :: ds else ds)

/-- Embeds TMDBService._fetch_and_import_director: a credits transport
failure is caught and yields None; a KeyError from the crew scan is not a
RequestException and propagates; the first director found is imported. -/
def fetch_and_import_director (w : World) (db : DB) (tid : Nat) :
    Except PyErr (Option String × DB) :=
  match w.credits tid with
  | .error _ => .ok (none, db)
  | .ok crew =>
    match select_directors crew with
    | .error e => .error e
    | .ok [] => .ok (none, db)
    | .ok (d :: _) => .ok (import_author w db d)

/-- Embeds TMDBService._download_and_save_poster: on transport error or
non-200 status the film is left untouched (the old poster is deleted only
inside the success branch); on success the poster is replaced under a
slugified filename. -/
def download_and_save_poster (w : World) (film : FilmRow) (poster_path : String) : FilmRow :=
  match w.image (IMAGE_BASE_URL ++ poster_path) with
  | .error _ => film
  | .ok (status, content) =>
    if status = 200 then
      { film with poster := some ("poster_" ++ slugify film.title ++ ".jpg", content) }
    else film

/-- Embeds TMDBService.import_movie against the declared Film model
(non-null author ForeignKey, no authors field): the required-field
truthiness guard and the director resolution proceed as in the source,
and then the film step always raises.  On the create path,
Film.objects.update_or_create omits the non-null author from its
defaults, so the INSERT dies with IntegrityError (services.py line 69);
on the update path the defaults are applied to the matching row and
film.authors.add then dereferences an attribute the Film model does not
define, raising AttributeError (services.py line 82).  Neither error is
a RequestException, nothing catches them, and transaction.atomic rolls
the record writes (user, author, film update) back, so an error result
leaves the store exactly as it was passed in. -/
def import_movie (w : World) (db : DB) (movie_data : MovieRecord) :
    Except PyErr (Option FilmRow × DB) :=
  if ¬ (truthyNat movie_data.id && truthyStr movie_data.title &&
        truthyStr movie_data.release_date) then
    .ok (none, db)
  else
    let tid := movie_data.id.getD 0
    match fetch_and_import_director w db tid with
    | .error e => .error e
    | .ok (none, db1) => .ok (none, db1)
    | .ok (some _, db1) =>
      if db1.films.any (fun f => f.tmdb_id = some tid) then
        .error .attributeError
      else
        .error .integrityError

/-- Embeds the per-record loop of the import_tmdb command: each record
is imported in turn and successes (truthy returns) are counted; an
exception from import_movie aborts the loop. -/
def handle_records (w : World) (db : DB) : List MovieRecord → Except PyErr (Nat × DB)
  | [] => .ok (0, db)
  | r :: rs =>
    match import_movie w db r with
    | .error e => .error e
    | .ok (filmOpt, db1) =>
      match handle_records w db1 rs with
      | .error e => .error e
      | .ok (n, db2) => .ok ((if filmOpt.isSome then 1 else 0) + n, db2)

/-! ## Author deletion (authors/views.py AuthorViewSet.perform_destroy) -/

structure ConflictErr where
  detail : String
  code : String
  status_code : Nat
deriving DecidableEq

structure AppState where
  db : DB
  cache : VCache

/-- Embeds AuthorViewSet.perform_destroy: the dependent-films precondition
is checked first and raises ConflictError before the delete and before the
cache version increment on the authors:list prefix. -/
def perform_destroy (st : AppState) (author_key : String) : Except ConflictErr AppState :=
  if st.db.films.any (fun f => f.author = author_key) then
    .error ⟨"Impossible to delete an author who has associated films.", "AUTHOR_HAS_FILMS", 409⟩
  else
    .ok { db := { st.db with authors := st.db.authors.filter (fun a => a.username ≠ author_key) },
          cache := increment_version st.cache "authors:list" }

def c4DB : DB :=
  { users := [⟨"ua", "ua@example.com", "A", "B", "author"⟩],
    authors := [⟨"ua", some 7, "TMDB", none, "", none⟩],
    films := [⟨some 42, "X", "", "2020-01-01", "published", "G", "TMDB", "ua", none⟩] }

def c7World : World :=
  { credits := fun _ => .ok [], person := fun _ => none, image := fun _ => .error () }

def c10World : World :=
  { credits := fun _ => .ok [⟨some "Director", some 9, some "J", none⟩],
    person := fun _ => none, image := fun _ => .error () }

def c8World : World :=
  { credits := fun _ => .ok [⟨some "Director", some 9, some "Jane Doe", none⟩],
    person := fun _ => none,
    image := fun _ => .ok (404, []) }

def c8Record : MovieRecord :=
  ⟨some 100, some "Movie With Bad Poster", some "2023-01-01", none, some "/bad.jpg"⟩

def c6World : World :=
  { credits := fun _ => .ok [⟨some "Writer", some 5, some "No Dir", none⟩],
    person := fun _ => none,
    image := fun _ => .error () }

def c6Record : MovieRecord := ⟨some 42, some "X", some "2020-01-01", none, none⟩

def c6BadWorld : World :=
  { credits := fun _ => .ok [⟨none, some 5, some "X", none⟩],
    person := fun _ => none,
    image := fun _ => .error () }

def c5Rec1 : MovieRecord := ⟨some 1, some "A", some "2020-01-01", none, none⟩

def c5Rec2 : MovieRecord := ⟨some 2, some "B", some "2020-01-02", none, none⟩

def c1World : World :=
  { credits := fun _ => .ok [⟨some "Director", some 9, some "Jane Doe", none⟩],
    person := fun _ => none,
    image := fun _ => .error () }

def c1Record : MovieRecord :=
  ⟨some 100, some "Imported Movie", some "2023-01-01", some "Overview", none⟩

/-- A store already holding a Film row for external id 100, as the admin
path creates it with the author ForeignKey set; the user and author
tables are immaterial to the traced control flow and left empty. -/
def c1ExistingDB : DB :=
  ⟨[], [], [⟨some 100, "Old Title", "", "2000-01-01", "draft", "G", "ADMIN", "ua", none⟩]⟩

/-- World for the partial-success scenario of the specification: the
credits of movie 1 resolve a director, the credits fetch of every other
movie fails with a transport error. -/
def c5World : World :=
  { credits := fun tid =>
      if tid = 1 then .ok [⟨some "Director", some 9, some "Jane", none⟩]
      else .error (),
    person := fun _ => none,
    image := fun _ => .error () }

/-- A film row with a stored poster, for exercising the downloader. -/
def c8Film : FilmRow :=
  ⟨some 100, "Movie With Bad Poster", "", "2023-01-01", "published", "G", "TMDB",
   "ua", some ("poster_old.jpg", [1])⟩

theorem digitChar_inj_lt : ∀ a < 10, ∀ b < 10, Nat.digitChar a = Nat.digitChar b → a = b := by
  decide

theorem digitChar_isDigit : ∀ a < 10, (Nat.digitChar a).isDigit = true := by
  decide

theorem charVal_digitChar : ∀ d < 10, (Nat.digitChar d).toNat - 48 = d := by
  decide

theorem natToDec_leftInv (n : Nat) :
    Nat.ofDigits 10 ((natToDec n).data.reverse.map (fun c => c.toNat - 48)) = n := by
  by_cases hn : n = 0
  · subst hn
    simp [natToDec, Nat.ofDigits]
  · simp only [natToDec, if_neg hn]
    rw [List.reverse_reverse, List.map_map]
    have : ((Nat.digits 10 n).map ((fun c => c.toNat - 48) ∘ Nat.digitChar))
        = (Nat.digits 10 n).map id := by
      apply List.map_congr_left
      intro d hd
      exact charVal_digitChar d (Nat.digits_lt_base (by norm_num) hd)
    rw [this, List.map_id, Nat.ofDigits_digits]

theorem natToDec_injective : Function.Injective natToDec := by
  intro m n h
  have h1 := natToDec_leftInv m
  rw [h, natToDec_leftInv] at h1
  exact h1.symm

theorem natToDec_all_digits {n : Nat} : ∀ ch ∈ (natToDec n).data, ch.isDigit = true := by
  intro ch hch
  by_cases hn : n = 0
  · subst hn
    simp only [natToDec, if_pos rfl] at hch
    have : ch = '0' := by simpa using hch
    subst this
    decide
  · simp only [natToDec, if_neg hn] at hch
    simp only [List.mem_reverse, List.mem_map] at hch
    obtain ⟨d, hd, rfl⟩ := hch
    exact digitChar_isDigit d (Nat.digits_lt_base (by norm_num) hd)

theorem natToDec_no_colon {n : Nat} : ':' ∉ (natToDec n).data := by
  intro h
  have := natToDec_all_digits ':' h
  simp [Char.isDigit] at this

/-- Check against the RFC 1321 test suite value for the empty string. -/
theorem md5hex_empty : md5hex "" = "d41d8cd98f00b204e9800998ecf8427e" := by decide

/-- Check against the RFC 1321 test suite value for "abc". -/
theorem md5hex_abc : md5hex "abc" = "900150983cd24fb0d6963f7d28e17f72" := by decide

theorem md5Block_lt (st : MD5St) (M : List Nat) :
    (md5Block st M).a < m32 ∧ (md5Block st M).b < m32 ∧
    (md5Block st M).c < m32 ∧ (md5Block st M).d < m32 := by
  refine ⟨?_, ?_, ?_, ?_⟩ <;> exact Nat.mod_lt _ (by decide)

theorem foldl_md5Block_lt (blocks : List (List Nat)) (st : MD5St)
    (h : st.a < m32 ∧ st.b < m32 ∧ st.c < m32 ∧ st.d < m32) :
    (blocks.foldl md5Block st).a < m32 ∧ (blocks.foldl md5Block st).b < m32 ∧
    (blocks.foldl md5Block st).c < m32 ∧ (blocks.foldl md5Block st).d < m32 := by
  induction blocks generalizing st with
  | nil => exact h
  | cons blk rest ih => exact ih (md5Block st blk) (md5Block_lt st blk)

theorem md5compute_lt (msg : List Nat) :
    (md5compute msg).a < m32 ∧ (md5compute msg).b < m32 ∧
    (md5compute msg).c < m32 ∧ (md5compute msg).d < m32 :=
  foldl_md5Block_lt (toBlocks (md5pad msg)) md5init
    ⟨by decide, by decide, by decide, by decide⟩

/-! ## Structure of generated keys -/

theorem colon_sep_inj {l1 l2 r1 r2 : List Char} (h1 : ':' ∉ l1) (h2 : ':' ∉ l2)
    (h : l1 ++ ':' :: r1 = l2 ++ ':' :: r2) : l1 = l2 ∧ r1 = r2 := by
  induction l1 generalizing l2 with
  | nil =>
    cases l2 with
    | nil => simpa using h
    | cons b t2 =>
      exfalso
      simp only [List.nil_append, List.cons_append, List.cons.injEq] at h
      exact h2 (by simp [h.1.symm])
  | cons a t ih =>
    cases l2 with
    | nil =>
      exfalso
      simp only [List.nil_append, List.cons_append, List.cons.injEq] at h
      exact h1 (by simp [h.1])
    | cons b t2 =>
      simp only [List.cons_append, List.cons.injEq] at h
      obtain ⟨rfl, h2'⟩ := h
      have := ih (fun hm => h1 (List.mem_cons_of_mem _ hm))
        (fun hm => h2 (List.mem_cons_of_mem _ hm)) h2'
      exact ⟨by rw [this.1], this.2⟩

/-- Two keys for the same prefix built at different versions are distinct:
the version digits sit between the fixed ":v" separator and the next
colon, no digit is a colon, and decimal rendering is injective. -/
theorem keyFor_version_ne {pfx : String} {v1 v2 : Nat} (hne : v1 ≠ v2)
    (u1 u2 : Option Nat) (q1 q2 : String) :
    keyFor pfx v1 u1 q1 ≠ keyFor pfx v2 u2 q2 := by
  intro h
  have hdata := congrArg String.data h
  simp only [keyFor, String.data_append] at hdata
  have hdata2 : (natToDec v1).data ++ ':' :: ((user_part u1).data ++ [':', 'q'] ++ (md5hex q1).data)
      = (natToDec v2).data ++ ':' :: ((user_part u2).data ++ [':', 'q'] ++ (md5hex q2).data) := by
    have : pfx.data ++ ([':', 'v'] ++ ((natToDec v1).data ++ (':' :: ((user_part u1).data ++ [':', 'q'] ++ (md5hex q1).data))))
        = pfx.data ++ ([':', 'v'] ++ ((natToDec v2).data ++ (':' :: ((user_part u2).data ++ [':', 'q'] ++ (md5hex q2).data)))) := by
      simpa [List.append_assoc] using hdata
    have := List.append_cancel_left this
    exact List.append_cancel_left this
  have := (colon_sep_inj natToDec_no_colon natToDec_no_colon hdata2).1
  exact hne (natToDec_injective (String.ext this))

/-- Two keys for the same prefix, version and actor agree exactly when the
two query digests agree: everything before the digest is a fixed common
prefix of the key. -/
theorem keyFor_eq_iff_digest_eq (pfx : String) (v : Nat) (u : Option Nat)
    (q1 q2 : String) : keyFor pfx v u q1 = keyFor pfx v u q2 ↔ md5hex q1 = md5hex q2 := by
  constructor
  · intro h
    have hdata := congrArg String.data h
    simp only [keyFor, String.data_append, List.append_assoc] at hdata
    have h1 := List.append_cancel_left hdata
    have h2 := List.append_cancel_left h1
    have h3 := List.append_cancel_left h2
    have h4 := List.append_cancel_left h3
    have h5 := List.append_cancel_left h4
    exact String.ext (List.append_cancel_left h5)
  · intro h
    simp [keyFor, h]

theorem md5hex_exists_collision : ∃ q1 q2 : String, q1 ≠ q2 ∧ md5hex q1 = md5hex q2 := by
  obtain ⟨q1, q2, hne, heq⟩ := Finite.exists_ne_map_eq_of_infinite md5fin
  refine ⟨q1, q2, hne, ?_⟩
  have h1 := congrArg (fun p => p.1.val) heq
  have h2 := congrArg (fun p => p.2.1.val) heq
  have h3 := congrArg (fun p => p.2.2.1.val) heq
  have h4 := congrArg (fun p => p.2.2.2.val) heq
  simp only [md5fin] at h1 h2 h3 h4
  rw [Nat.mod_eq_of_lt (md5compute_lt (utf8Bytes q1)).1,
    Nat.mod_eq_of_lt (md5compute_lt (utf8Bytes q2)).1] at h1
  rw [Nat.mod_eq_of_lt (md5compute_lt (utf8Bytes q1)).2.1,
    Nat.mod_eq_of_lt (md5compute_lt (utf8Bytes q2)).2.1] at h2
  rw [Nat.mod_eq_of_lt (md5compute_lt (utf8Bytes q1)).2.2.1,
    Nat.mod_eq_of_lt (md5compute_lt (utf8Bytes q2)).2.2.1] at h3
  rw [Nat.mod_eq_of_lt (md5compute_lt (utf8Bytes q1)).2.2.2,
    Nat.mod_eq_of_lt (md5compute_lt (utf8Bytes q2)).2.2.2] at h4
  have hst : md5compute (utf8Bytes q1) = md5compute (utf8Bytes q2) := by
    cases hq1 : md5compute (utf8Bytes q1)
    cases hq2 : md5compute (utf8Bytes q2)
    rw [hq1, hq2] at h1 h2 h3 h4
    simp_all
  simp [md5hex, hst]

/-! ## Version counter results -/

/-- After k + 1 increments on an initially unset counter, the stored value
is k + 1 (the first increment stores 1, each later one adds 1). -/
theorem incrN_lookup (c : VCache) (pfx : String) (h : c (pfx ++ ":version") = none) :
    ∀ k, (incrN c pfx (k + 1)) (pfx ++ ":version") = some (k + 1) := by
  intro k
  induction k with
  | zero => simp [incrN, increment_version, h, cacheSet]
  | succ n ih =>
    show increment_version (incrN c pfx (n + 1)) pfx (pfx ++ ":version") = some (n + 1 + 1)
    rw [increment_version, ih]
    simp [cacheSet]

/-- C2, amended: starting from an unset version key, n + 1 calls to
increment_version followed by get_version observe the value n + 1: the
first increment resets the missing counter to 1 rather than failing, and
each later increment raises the observed value by exactly 1. -/
theorem c2_increment_from_unset (c : VCache) (pfx : String)
    (h : c (pfx ++ ":version") = none) (n : Nat) :
    (get_version (incrN c pfx (n + 1)) pfx).1 = n + 1 := by
  rw [get_version, incrN_lookup c pfx h n]

/-- C2 witness: four increments of films:list from the empty cache are
observed as 4. -/
theorem c2_increment_from_unset_witness :
    (get_version (incrN emptyCache "films:list" (3 + 1)) "films:list").1 = 3 + 1 :=
  c2_increment_from_unset emptyCache "films:list" rfl 3

/-- C2 counterexample: four increments starting from the unset key yield
version 4, not the 5 the specification scenario states. -/
theorem c2_counterexample :
    (get_version (incrN emptyCache "films:list" 4) "films:list").1 = 4 ∧
    (get_version (incrN emptyCache "films:list" 4) "films:list").1 ≠ 5 := by
  constructor
  · rfl
  · decide

/-! ## Cache key results -/

/-- C3: a key built while the prefix version is V + 1 differs from every
key built for the same prefix at version V, for all actors and query
strings, so a read observing V + 1 can never address a payload stored
under V. -/
theorem c3_version_advance_key_ne (c1 c2 : VCache) (pfx : String)
    (u1 u2 : Option Nat) (q1 q2 : String)
    (h : (get_version c2 pfx).1 = (get_version c1 pfx).1 + 1) :
    (build_list_cache_key c2 pfx u2 q2).1 ≠ (build_list_cache_key c1 pfx u1 q1).1 := by
  show keyFor pfx (get_version c2 pfx).1 u2 q2 ≠ keyFor pfx (get_version c1 pfx).1 u1 q1
  rw [h]
  exact keyFor_version_ne (by omega) u2 u1 q2 q1

/-- C3 witness at a concrete pair of cache states observing versions 2
and 1 on films:list. -/
theorem c3_version_advance_key_ne_witness :
    (build_list_cache_key (cacheSet emptyCache "films:list:version" 2) "films:list" none "").1
      ≠ (build_list_cache_key emptyCache "films:list" (some 3) "page=2").1 :=
  c3_version_advance_key_ne emptyCache (cacheSet emptyCache "films:list:version" 2)
    "films:list" (some 3) none "page=2" "" (by decide)

/-- C9, amended: with the same prefix, version and actor, two query
strings whose md5 digests differ produce different keys; the key embeds
the digest of the raw query string, so distinct query strings separate
exactly when their digests do. -/
theorem c9_digest_separates_keys (c : VCache) (pfx : String) (u : Option Nat)
    (q1 q2 : String) (h : md5hex q1 ≠ md5hex q2) :
    (build_list_cache_key c pfx u q1).1 ≠ (build_list_cache_key c pfx u q2).1 := by
  show keyFor pfx (get_version c pfx).1 u q1 ≠ keyFor pfx (get_version c pfx).1 u q2
  intro heq
  exact h ((keyFor_eq_iff_digest_eq pfx (get_version c pfx).1 u q1 q2).1 heq)

/-- C9 witness: the queries "" and "page=2" have different digests and
therefore different keys. -/
theorem c9_digest_separates_keys_witness :
    (build_list_cache_key emptyCache "films:list" none "").1
      ≠ (build_list_cache_key emptyCache "films:list" none "page=2").1 :=
  c9_digest_separates_keys emptyCache "films:list" none "" "page=2" (by decide)

/-- C9 counterexample: it is not the case that every two distinct query
strings give different keys for a fixed prefix, version and actor; md5
maps infinitely many strings onto 128-bit digests, so some pair of
distinct query strings shares a digest and hence a key. -/
theorem c9_counterexample :
    ¬ (∀ q1 q2 : String, q1 ≠ q2 →
        (build_list_cache_key emptyCache "films:list" none q1).1
          ≠ (build_list_cache_key emptyCache "films:list" none q2).1) := by
  intro hall
  obtain ⟨q1, q2, hne, hcol⟩ := md5hex_exists_collision
  apply hall q1 q2 hne
  show keyFor "films:list" (get_version emptyCache "films:list").1 none q1
    = keyFor "films:list" (get_version emptyCache "films:list").1 none q2
  exact (keyFor_eq_iff_digest_eq _ _ _ q1 q2).2 hcol

/-! ## Author deletion results -/

/-- C4: deleting an author that still owns at least one film is rejected
with the structured AUTHOR_HAS_FILMS conflict before the delete and before
the authors:list version increment; no successor state is produced, so the
author rows and the cache are left exactly as they were. -/
theorem c4_destroy_with_films_conflict (st : AppState) (key : String)
    (h : ∃ f ∈ st.db.films, f.author = key) :
    perform_destroy st key =
      .error ⟨"Impossible to delete an author who has associated films.",
              "AUTHOR_HAS_FILMS", 409⟩ ∧
    ∀ st2, perform_destroy st key ≠ .ok st2 := by
  have hb : st.db.films.any (fun f => f.author = key) = true := by
    rcases h with ⟨f, hf, hmem⟩
    simp only [List.any_eq_true, decide_eq_true_eq]
    exact ⟨f, hf, hmem⟩
  constructor
  · rw [perform_destroy, if_pos hb]
  · intro st2 hcontra
    rw [perform_destroy, if_pos hb] at hcontra
    cases hcontra

/-- C4 witness on a one-author one-film store. -/
theorem c4_destroy_with_films_conflict_witness :
    perform_destroy ⟨c4DB, emptyCache⟩ "ua" =
      .error ⟨"Impossible to delete an author who has associated films.",
              "AUTHOR_HAS_FILMS", 409⟩ ∧
    ∀ st2, perform_destroy ⟨c4DB, emptyCache⟩ "ua" ≠ .ok st2 :=
  c4_destroy_with_films_conflict ⟨c4DB, emptyCache⟩ "ua"
    ⟨⟨some 42, "X", "", "2020-01-01", "published", "G", "TMDB", "ua", none⟩,
      by decide, by decide⟩

/-! ## Required-field skip rules -/

/-- C7: a record with external id, title or release date absent is
skipped: import_movie returns None and the store is untouched. -/
theorem c7_missing_field_skips (w : World) (db : DB) (r : MovieRecord)
    (h : r.id = none ∨ r.title = none ∨ r.release_date = none) :
    import_movie w db r = .ok (none, db) := by
  have hg : (truthyNat r.id && truthyStr r.title && truthyStr r.release_date) = false := by
    rcases h with h | h | h <;> simp [truthyNat, truthyStr, h]
  rw [import_movie, hg]
  simp

/-- C7 witness: a record with no release_date is skipped. -/
theorem c7_missing_field_skips_witness :
    import_movie c7World emptyDB ⟨some 42, some "X", none, none, none⟩ = .ok (none, emptyDB) :=
  c7_missing_field_skips c7World emptyDB ⟨some 42, some "X", none, none, none⟩
    (Or.inr (Or.inr rfl))

/-- C10: required fields that are present but falsy (id 0, empty title or
empty release date) are treated like absent fields: the record is skipped
with no store change, because the guard tests Python truthiness. -/
theorem c10_falsy_field_skips (w : World) (db : DB) (r : MovieRecord)
    (h : r.id = some 0 ∨ r.title = some "" ∨ r.release_date = some "") :
    import_movie w db r = .ok (none, db) := by
  have hg : (truthyNat r.id && truthyStr r.title && truthyStr r.release_date) = false := by
    rcases h with h | h | h <;> simp [truthyNat, truthyStr, h]
  rw [import_movie, hg]
  simp

/-- C10 witness: id 0 with otherwise valid fields is skipped. -/
theorem c10_falsy_field_skips_witness :
    import_movie c10World emptyDB ⟨some 0, some "X", some "2020-01-01", none, none⟩
      = .ok (none, emptyDB) :=
  c10_falsy_field_skips c10World emptyDB ⟨some 0, some "X", some "2020-01-01", none, none⟩
    (Or.inl rfl)

theorem select_directors_none {crew : List CrewMember}
    (hjob : ∀ m ∈ crew, (m.job).isSome = true)
    (hnd : ∀ m ∈ crew, m.job ≠ some "Director") :
    select_directors crew = .ok [] := by
  induction crew with
  | nil => rfl
  | cons m rest ih =>
    obtain ⟨j, hj⟩ := Option.isSome_iff_exists.1 (hjob m (by simp))
    have hrest := ih (fun x hx => hjob x (by simp [hx])) (fun x hx => hnd x (by simp [hx]))
    have hjne : j ≠ "Director" := by
      intro hcontra
      exact hnd m (by simp) (by rw [hj, hcontra])
    rw [select_directors, hj, hrest]
    simp [hjne]

theorem select_directors_head_find {crew : List CrewMember} {d : CrewMember}
    {ds : List CrewMember} (h : select_directors crew = .ok (d :: ds)) :
    crew.find? (fun m => m.job == some "Director") = some d := by
  induction crew generalizing ds with
  | nil => cases h
  | cons m rest ih =>
    cases hj : m.job with
    | none =>
      rw [select_directors, hj] at h
      cases h
    | some j =>
      cases hrest : select_directors rest with
      | error e =>
        rw [select_directors, hj, hrest] at h
        cases h
      | ok l =>
        have hred : select_directors (m :: rest)
            = .ok (if j = "Director" then m :: l else l) := by
          rw [select_directors, hj, hrest]
        rw [hred] at h
        by_cases hdir : j = "Director"
        · subst hdir
          rw [if_pos rfl] at h
          simp only [Except.ok.injEq, List.cons.injEq] at h
          rw [List.find?_cons_of_pos _ (by simp [hj])]
          rw [h.1]
        · rw [if_neg hdir] at h
          simp only [Except.ok.injEq] at h
          subst h
          rw [List.find?_cons_of_neg _ (by simp [hj, hdir])]
          exact ih hrest

/-! ## C6: records without a resolvable director are skipped -/

/-- C6, amended: for a record passing the required-field guard, a credits
transport failure yields None with the store untouched; when the fetched
crew members all carry a job key, the absence of any "Director" job
yields None with the store untouched, and when directors exist the first
crew member whose job equals "Director" (in returned order) is the one
whose import is attempted.  (A crew member lacking the job key instead
raises KeyError, see the counterexample.) -/
theorem c6_no_director_skips (w : World) (db : DB) (r : MovieRecord) {T : Nat}
    {ttl rd : String}
    (hid : r.id = some T) (hT : T ≠ 0)
    (httl : r.title = some ttl) (httl2 : ttl ≠ "")
    (hrd : r.release_date = some rd) (hrd2 : rd ≠ "") :
    (w.credits T = .error () → import_movie w db r = .ok (none, db)) ∧
    (∀ crew, w.credits T = .ok crew → (∀ m ∈ crew, (m.job).isSome = true) →
      ((∀ m ∈ crew, m.job ≠ some "Director") → import_movie w db r = .ok (none, db)) ∧
      (∀ d ds, select_directors crew = .ok (d :: ds) →
        crew.find? (fun m => m.job == some "Director") = some d ∧
        fetch_and_import_director w db T = .ok (import_author w db d))) := by
  have hguard : (truthyNat (some T) && truthyStr (some ttl) && truthyStr (some rd)) = true := by
    simp [truthyNat, truthyStr, hT, httl2, hrd2]
  constructor
  · intro hcE
    have hfetch : fetch_and_import_director w db T = .ok (none, db) := by
      simp only [fetch_and_import_director, hcE]
    simp only [import_movie, hid, httl, hrd, Option.getD_some, hfetch, hguard,
      eq_self_iff_true, not_true, if_false]
  · intro crew hcred hjob
    constructor
    · intro hnd
      have hfetch : fetch_and_import_director w db T = .ok (none, db) := by
        simp only [fetch_and_import_director, hcred, select_directors_none hjob hnd]
      simp only [import_movie, hid, httl, hrd, Option.getD_some, hfetch, hguard,
        eq_self_iff_true, not_true, if_false]
    · intro d ds hsel
      refine ⟨select_directors_head_find hsel, ?_⟩
      simp only [fetch_and_import_director, hcred, hsel]

/-- C6 witness: credits holding only a Writer make the import return None
and leave the store untouched. -/
theorem c6_no_director_skips_witness :
    import_movie c6World emptyDB c6Record = .ok (none, emptyDB) :=
  ((c6_no_director_skips c6World emptyDB c6Record rfl (by decide) rfl (by decide)
      rfl (by decide)).2
    [⟨some "Writer", some 5, some "No Dir", none⟩] rfl (by decide)).1 (by decide)

/-- C6 counterexample: a crew whose only member carries no job key at all
contains no member with job "Director", yet import_movie raises KeyError
instead of returning the no-entity result. -/
theorem c6_counterexample :
    (∀ m ∈ [(⟨none, some 5, some "X", none⟩ : CrewMember)], m.job ≠ some "Director") ∧
    c6BadWorld.credits 42 = .ok [⟨none, some 5, some "X", none⟩] ∧
    import_movie c6BadWorld emptyDB c6Record = .error PyErr.keyError ∧
    import_movie c6BadWorld emptyDB c6Record ≠ .ok (none, emptyDB) := by
  refine ⟨by decide, rfl, by decide, by decide⟩

/-! ## C1, C5, C8: the film step of the import pipeline raises against
the declared Film model -/

/-- C1: against the declared Film model, importing a record with a
resolvable director never succeeds at all, so the claimed idempotent
re-import cannot happen: the first import raises IntegrityError on the
create path (no film row exists for the id), raises AttributeError on
the update path (a film row already exists), and never returns a
result.  The claim matches the intent evidenced by the test suite
(films/tests/test_services.py asserts film.authors.count() = 1), which
presupposes an authors many-to-many that src/films/models.py does not
declare. -/
theorem c1_film_upsert_raises :
    import_movie c1World emptyDB c1Record = .error PyErr.integrityError ∧
    import_movie c1World c1ExistingDB c1Record = .error PyErr.attributeError ∧
    ∀ o db2, import_movie c1World emptyDB c1Record ≠ .ok (o, db2) := by
  have h1 : import_movie c1World emptyDB c1Record = .error PyErr.integrityError := by decide
  exact ⟨h1, by decide, fun o db2 h => Except.noConfusion (h1.symm.trans h)⟩

/-- C5: the specification scenario of a two-record batch whose first
record succeeds and whose second suffers a director-fetch failure
cannot even start against the declared Film model: the first record
raises IntegrityError out of the loop at the film upsert, the run
aborts with no success tally, and the second record is never
processed. -/
theorem c5_batch_aborts_at_film_step :
    handle_records c5World emptyDB [c5Rec1, c5Rec2] = .error PyErr.integrityError ∧
    ∀ n db2, handle_records c5World emptyDB [c5Rec1, c5Rec2] ≠ .ok (n, db2) := by
  have h1 : handle_records c5World emptyDB [c5Rec1, c5Rec2]
      = .error PyErr.integrityError := by decide
  exact ⟨h1, fun n db2 h => Except.noConfusion (h1.symm.trans h)⟩

/-- C8: the downloader itself does leave a stored asset untouched on a
non-success status (first conjunct), but against the declared Film
model import_movie never reaches the poster step: it raises
IntegrityError at the film upsert and never returns the Film, so the
movie does not count as imported. -/
theorem c8_film_step_raises_before_poster :
    download_and_save_poster c8World c8Film "/bad.jpg" = c8Film ∧
    import_movie c8World emptyDB c8Record = .error PyErr.integrityError ∧
    ∀ f db2, import_movie c8World emptyDB c8Record ≠ .ok (some f, db2) := by
  have h1 : import_movie c8World emptyDB c8Record = .error PyErr.integrityError := by decide
  exact ⟨by decide, h1, fun f db2 h => Except.noConfusion (h1.symm.trans h)⟩
